import Mathlib

/-!
# Verification of the feedback & telemetry analytics engine

Shallow embedding, in Lean 4, of the analytics subsystem of the CursorAI
business-review application:

* `src/utils/sentimentAnalysis.js` — keyword-based sentiment scorer;
* the aspect classifier (`analyzeAspects` / `generateAspectSummary`);
* `src/utils/logAnalyzer.js` — log classification, error clustering,
  recommendations;
* the `FeedbackAnalyzer` class (priority scoring, error recommendations,
  metrics) and `src/utils/feedbackCollector.js` (`getStatistics`).

JavaScript numbers are modelled as exact rationals (`ℚ`) where the source
only performs field arithmetic, and as reals (`ℝ`) where `Math.exp` is
involved.  A JavaScript division that can produce `NaN`/`Infinity`
(denominator `0`) is modelled as `Option ℚ`, `none` standing for the
non-finite results.  Timestamps are milliseconds (`ℤ` or `ℝ`).
-/

/- Batteries marks the arithmetic on `Rat` `@[irreducible]`, which blocks
`decide`-style evaluation of the embedding on concrete inputs; restore the
default reducibility for this development. -/
attribute [local semireducible] Rat.add Rat.mul Rat.inv Rat.sub

namespace Analytics

/-! ## JavaScript string primitives

The source tokenizes with `text.toLowerCase().split(/\W+/)` and splits
sentences with `split(/[.!?]+/)`.  We model strings as their character
lists.  `\w` in JavaScript is `[A-Za-z0-9_]`; all dictionary keywords and
inputs of interest are ASCII, for which `Char.toLower` agrees with
JavaScript `toLowerCase`. -/

/-- A JavaScript word character: `[A-Za-z0-9_]` (regex `\w`). -/
def isWordChar (c : Char) : Bool :=
  (('a' ≤ c && c ≤ 'z') || ('A' ≤ c && c ≤ 'Z') || ('0' ≤ c && c ≤ '9') || c == '_')

/-- `s.split(/[D]+/)` for a delimiter class `isDelim`: cut at each maximal
run of delimiter characters; a run touching the start or the end of the
string contributes an empty field, exactly as in JavaScript.  `cur` is the
current field (reversed), `inDelim` records that the previous character
belonged to a delimiter run (so further delimiter characters extend the
same run instead of producing another field). -/
def splitOnRuns (isDelim : Char → Bool) : List Char → List Char → Bool → List String
  | [], cur, _ => [String.mk cur.reverse]
  | c :: rest, cur, inDelim =>
      if isDelim c then
        if inDelim then splitOnRuns isDelim rest cur true
        else String.mk cur.reverse :: splitOnRuns isDelim rest [] true
      else splitOnRuns isDelim rest (c :: cur) false

/-- `s.split(/\W+/)` on a character list. -/
def splitNonWord (cs : List Char) : List String :=
  splitOnRuns (fun c => !isWordChar c) cs [] false

/-- Lower-case a string character-wise (ASCII fragment of
`String.prototype.toLowerCase`). -/
def lowerStr (s : String) : String := String.mk (s.data.map Char.toLower)

/-- `text.toLowerCase().split(/\W+/)` — the tokenizer of
`analyzeSentiment` (sentimentAnalysis.js line 39). -/
def tokenize (text : String) : List String :=
  splitNonWord (lowerStr text).data

/-! ## Sentiment scorer (`src/utils/sentimentAnalysis.js`) -/

/-- `POSITIVE_KEYWORDS` (sentimentAnalysis.js lines 2–16), weights exact. -/
def POSITIVE_KEYWORDS : List (String × ℚ) :=
  [("excellent", 1), ("amazing", 1), ("great", 8/10), ("good", 5/10),
   ("nice", 5/10), ("decent", 3/10), ("friendly", 6/10), ("clean", 4/10),
   ("recommend", 7/10), ("delicious", 8/10), ("fantastic", 9/10),
   ("helpful", 6/10), ("professional", 7/10)]

/-- `NEGATIVE_KEYWORDS` (sentimentAnalysis.js lines 18–31). -/
def NEGATIVE_KEYWORDS : List (String × ℚ) :=
  [("terrible", -1), ("horrible", -1), ("bad", -7/10), ("poor", -6/10),
   ("dirty", -6/10), ("rude", -8/10), ("slow", -4/10), ("expensive", -5/10),
   ("disappointing", -7/10), ("awful", -9/10), ("mediocre", -4/10),
   ("unprofessional", -7/10)]

/-- `Map.has`/`Map.get` on a keyword table. -/
def lookupKw (tbl : List (String × ℚ)) (w : String) : Option ℚ :=
  (tbl.find? (fun p => p.1 == w)).map (fun p => p.2)

/-- `parseFloat(x.toFixed(2))`: round to 2 decimal places.  ECMAScript
`toFixed` picks the closest multiple of `10^-2`, the larger one on ties. -/
def round2 (q : ℚ) : ℚ := (⌊q * 100 + 1/2⌋ : ℚ) / 100

/-- One iteration of the `for (const word of words)` loop of
`analyzeSentiment` (lines 43–51): accumulated `(totalScore, matchedWords)`. -/
def senStep (acc : ℚ × List (String × ℚ)) (w : String) : ℚ × List (String × ℚ) :=
  match lookupKw POSITIVE_KEYWORDS w with
  | some v => (acc.1 + v, acc.2 ++ [(w, v)])
  | none =>
      match lookupKw NEGATIVE_KEYWORDS w with
      | some v => (acc.1 + v, acc.2 ++ [(w, v)])
      | none => acc

/-- Result record of `analyzeSentiment`. -/
structure SentimentResult where
  score : ℚ
  matchedWords : List (String × ℚ)
  confidence : ℚ
  deriving DecidableEq, Repr

/-- `analyzeSentiment` (sentimentAnalysis.js lines 38–63).
`normalizedScore = matched.length > 0 ? totalScore / Math.max(len, 1) : 0`,
then `score = parseFloat(normalizedScore.toFixed(2))`,
`confidence = Math.min(len / 3, 1)`. -/
def analyzeSentiment (text : String) : SentimentResult :=
  let words := tokenize text
  let acc := words.foldl senStep (0, [])
  { score :=
      round2 (if 0 < acc.2.length then acc.1 / max (acc.2.length : ℚ) 1 else 0)
    matchedWords := acc.2
    confidence := min ((acc.2.length : ℚ) / 3) 1 }

/-- The per-token match decision of the loop body: the positive table is
consulted first, then the negative one. -/
def matchOf (w : String) : Option (String × ℚ) :=
  match lookupKw POSITIVE_KEYWORDS w with
  | some v => some (w, v)
  | none =>
      match lookupKw NEGATIVE_KEYWORDS w with
      | some v => some (w, v)
      | none => none

/-! ## Aspect classifier (`analyzeAspects` / `generateAspectSummary`,
src/unnamed/part_015) -/

/-- `ASPECT_KEYWORDS` (part_015 lines 59–85), in object-literal insertion
order: service, food, pricing, ambiance, location. -/
def ASPECT_KEYWORDS : List (String × List String) :=
  [("service",
    ["service", "staff", "waiter", "waitress", "server", "host",
     "hostess", "employee", "attention", "responsive", "quick",
     "slow", "friendly", "rude", "helpful", "attentive"]),
   ("food",
    ["food", "dish", "meal", "taste", "flavor", "delicious",
     "portion", "menu", "cuisine", "appetizer", "entree",
     "dessert", "drink", "beverage", "fresh", "stale"]),
   ("pricing",
    ["price", "value", "expensive", "cheap", "affordable",
     "overpriced", "cost", "worth", "deal", "bargain",
     "pricey", "reasonable", "fair", "money"]),
   ("ambiance",
    ["ambiance", "atmosphere", "decor", "music", "noise",
     "lighting", "comfortable", "clean", "dirty", "cozy",
     "crowded", "quiet", "romantic", "space", "interior"]),
   ("location",
    ["location", "parking", "accessible", "neighborhood",
     "area", "street", "downtown", "distance", "convenient",
     "nearby", "far", "close"])]

/-- A sentence-boundary character for `split(/[.!?]+/)`. -/
def isSentenceDelim (c : Char) : Bool := c == '.' || c == '!' || c == '?'

/-- An ASCII whitespace character, for `String.prototype.trim`. -/
def isSpaceChar (c : Char) : Bool :=
  c == ' ' || c == '\t' || c == '\n' || c == '\r'

/-- `s.trim()`: strip leading and trailing whitespace. -/
def trimStr (s : String) : String :=
  String.mk (((s.data.dropWhile isSpaceChar).reverse.dropWhile isSpaceChar).reverse)

/-- Sentence splitting of `analyzeAspects` (part_015 lines 94–97):
lower-case, split on `[.!?]+` runs, trim, drop empties. -/
def splitSentences (reviewText : String) : List String :=
  (((splitOnRuns isSentenceDelim (lowerStr reviewText).data [] false).map trimStr).filter
    (fun s => 0 < s.length))

/-- `Set.prototype.add` over all elements of `ms` (insertion order is
first-occurrence order, as for a JavaScript `Set`). -/
def addKeywords (acc : List String) (ms : List String) : List String :=
  ms.foldl (fun a k => if a.contains k then a else a ++ [k]) acc

/-- Per-aspect accumulation of the sentence-classification loop
(part_015 lines 112–125): matched sentences and the `Set` of matched
keywords, for one aspect with keyword list `keywords`. -/
def aspectBucket (sentences : List String) (keywords : List String) :
    List String × List String :=
  sentences.foldl
    (fun acc sentence =>
      let words := splitNonWord sentence.data
      let matched := keywords.filter (fun keyword => words.contains keyword)
      if 0 < matched.length then (acc.1 ++ [sentence], addKeywords acc.2 matched)
      else acc)
    ([], [])

/-- One aspect entry of the `results` object (part_015 lines 134–140). -/
structure AspectResult where
  score : ℚ
  confidence : ℚ
  mentions : ℕ
  keywords : List String
  relevantText : List String
  deriving DecidableEq, Repr

/-- Result rows of `analyzeAspects`: one entry per aspect with at least one
matching sentence, in `ASPECT_KEYWORDS` order (`mentionCount` equals the
number of matched sentences, since the loop pushes the sentence and
increments the counter under the same guard). -/
def aspectRows (reviewText : String) : List (String × AspectResult) :=
  (ASPECT_KEYWORDS.filterMap (fun p =>
    let data := aspectBucket (splitSentences reviewText) p.2
    if data.1.isEmpty then none
    else
      let combinedText := String.intercalate ". " data.1
      let sentimentAnalysis := analyzeSentiment combinedText
      some (p.1,
        { score := sentimentAnalysis.score
          confidence := sentimentAnalysis.confidence
          mentions := data.1.length
          keywords := data.2
          relevantText := data.1 })))

/-- The `summary` object of `generateAspectSummary` (part_015 lines
155–173). -/
structure AspectSummary where
  overallScore : ℚ
  dominantAspects : List (String × ℕ × ℚ)
  deriving DecidableEq, Repr

/-- `generateAspectSummary` (part_015 lines 155–173): `null` when no aspect
matched; otherwise the mean of the included aspects' scores rounded to two
decimals, and the top-2 aspects by `mentions` descending (stable, so ties
keep `ASPECT_KEYWORDS` order). -/
def generateAspectSummary (results : List (String × AspectResult)) :
    Option AspectSummary :=
  if results.isEmpty then none
  else
    let totalScore := (results.map (fun p => p.2.score)).sum
    let mentionedAspects := results.length
    some
      { overallScore := round2 (totalScore / (mentionedAspects : ℚ))
        dominantAspects :=
          ((results.insertionSort (fun a b => b.2.mentions ≤ a.2.mentions)).take 2).map
            (fun p => (p.1, p.2.mentions, p.2.score)) }

/-- `analyzeAspects` (part_015 lines 92–148): the aspect rows plus their
summary. -/
def analyzeAspects (reviewText : String) :
    List (String × AspectResult) × Option AspectSummary :=
  (aspectRows reviewText, generateAspectSummary (aspectRows reviewText))

/-- Score of a named aspect in the result of `analyzeAspects`. -/
def aspectScore (reviewText : String) (aspect : String) : Option ℚ :=
  ((analyzeAspects reviewText).1.find? (fun p => p.1 == aspect)).map
    (fun p => p.2.score)

/-! ## Log pattern analyzer (`src/utils/logAnalyzer.js`)

The `errorPatterns` regexes are all alternations of literal substrings with
the `i` flag (plus one `5\d\d` group); `pattern.test(message)` is therefore
case-insensitive substring search. -/

/-- `needle` is a prefix of `hay` (character lists). -/
def leadsWith : List Char → List Char → Bool
  | [], _ => true
  | _ :: _, [] => false
  | a :: as, b :: bs => a == b && leadsWith as bs

/-- `needle` occurs as a contiguous substring of `hay`. -/
def hasSub (needle : List Char) : List Char → Bool
  | [] => needle.isEmpty
  | c :: rest => leadsWith needle (c :: rest) || hasSub needle rest

/-- Case-insensitive literal-substring test (a `/lit/i` regex branch). -/
def containsCI (msg pat : String) : Bool := hasSub pat.data (lowerStr msg).data

/-- The regex branch `5\d\d`: a `5` followed by two digits. -/
def hasFiveDD : List Char → Bool
  | '5' :: a :: b :: rest => (a.isDigit && b.isDigit) || hasFiveDD (a :: b :: rest)
  | _ :: rest => hasFiveDD rest
  | [] => false

/-- `errorPatterns.timeout = /timeout|timed out/i` (logAnalyzer.js line 8). -/
def timeoutPat (msg : String) : Bool :=
  containsCI msg "timeout" || containsCI msg "timed out"

/-- `errorPatterns.memory = /out of memory|memory limit/i` (line 9). -/
def memoryPat (msg : String) : Bool :=
  containsCI msg "out of memory" || containsCI msg "memory limit"

/-- `errorPatterns.database = /database error|connection refused|deadlock/i`
(line 10). -/
def databasePat (msg : String) : Bool :=
  containsCI msg "database error" || containsCI msg "connection refused" ||
    containsCI msg "deadlock"

/-- `errorPatterns.api = /api error|rate limit|429|5\d\d/i` (line 11). -/
def apiPat (msg : String) : Bool :=
  containsCI msg "api error" || containsCI msg "rate limit" ||
    containsCI msg "429" || hasFiveDD (lowerStr msg).data

/-- `errorPatterns.security = /unauthorized|forbidden|invalid token/i`
(line 12). -/
def securityPat (msg : String) : Bool :=
  containsCI msg "unauthorized" || containsCI msg "forbidden" ||
    containsCI msg "invalid token"

/-- The `errorPatterns` object (lines 7–13); `Object.entries` enumerates
string keys in insertion order, so the classification loop sees exactly
this list. -/
def errorPatterns : List (String × (String → Bool)) :=
  [("timeout", timeoutPat), ("memory", memoryPat), ("database", databasePat),
   ("api", apiPat), ("security", securityPat)]

/-- The error-classification loop of `analyzeLogEntry` (lines 84–90):
first matching pattern wins (`break`), default `other`. -/
def classifyError (msg : String) : String :=
  match errorPatterns.find? (fun p => p.2 msg) with
  | some p => p.1
  | none => "other"

/-- A structured log entry (fields referenced by `analyzeLogEntry`);
absent optional JSON fields are `none`. -/
structure LogEntry where
  level : String
  message : String
  timestamp : Option ℤ := none
  path : Option String := none
  entryType : Option String := none
  duration : Option ℤ := none
  memoryHeapUsed : Option ℤ := none
  cpuUsage : Option ℤ := none
  deriving DecidableEq, Repr

/-- `results.errors[cat]` after running `analyzeLogEntry` over `entries`. -/
def errorCount (entries : List LogEntry) (cat : String) : ℕ :=
  (entries.filter (fun e => e.level == "error" && classifyError e.message == cat)).length

/-- `results.patterns.errorTimes`: timestamps of error entries that carry
one (lines 100–103; a missing/empty timestamp is skipped). -/
def errorTimes (entries : List LogEntry) : List ℤ :=
  entries.filterMap (fun e => if e.level == "error" then e.timestamp else none)

/-- `results.performance.slowRequests` (lines 107–114): `request` entries
with `duration > 2000` (an absent duration never exceeds the threshold). -/
def slowRequests (entries : List LogEntry) : List LogEntry :=
  entries.filter (fun e => e.entryType == some "request" && 2000 < e.duration.getD 0)

/-- `results.performance.highMemory` (lines 133–138): entries with
`memory.heapUsed > 500 * 1024 * 1024`. -/
def highMemory (entries : List LogEntry) : List LogEntry :=
  entries.filter (fun e => 500 * 1024 * 1024 < e.memoryHeapUsed.getD 0)

/-- The cluster loop of `analyzePatterns` (lines 152–171) over the
already-sorted timestamps, with current cluster `cur`: a gap of at most
300000 ms extends `cur`; a larger gap flushes `cur` when it has more than
one member and starts a fresh cluster; when the input is exhausted the
final `cur` is dropped (the source never flushes it after the loop). -/
def buildClusters : List ℤ → List ℤ → List (List ℤ)
  | [], _ => []
  | t :: rest, [] => buildClusters rest [t]
  | t :: rest, c :: cs =>
      if t - (c :: cs).getLast (List.cons_ne_nil c cs) ≤ 300000 then
        buildClusters rest ((c :: cs) ++ [t])
      else if 1 < (c :: cs).length then (c :: cs) :: buildClusters rest [t]
      else buildClusters rest [t]

/-- `results.patterns.errorClusters`: sort the error timestamps ascending
(line 149) and run the cluster loop. -/
def errorClusters (entries : List LogEntry) : List (List ℤ) :=
  buildClusters ((errorTimes entries).insertionSort (· ≤ ·)) []

/-- One block pushed by `generateRecommendations` (lines 200–274). -/
structure LogRecommendation where
  category : String
  priority : String
  issues : List String
  deriving DecidableEq, Repr

/-- `generateRecommendations` (lines 200–274): one fixed block per
category/performance dimension whose count is positive, in push order. -/
def generateLogRecommendations (entries : List LogEntry) : List LogRecommendation :=
  (if 0 < errorCount entries "database" then
    [{ category := "Database", priority := "High",
       issues := ["Frequent database connection errors detected",
                  "Consider implementing connection pooling",
                  "Add retry logic for failed queries",
                  "Monitor connection pool metrics"] }] else []) ++
  (if 0 < (slowRequests entries).length then
    [{ category := "Performance", priority := "Medium",
       issues := ["Multiple slow requests detected",
                  "Implement request caching",
                  "Add database query optimization",
                  "Consider implementing pagination"] }] else []) ++
  (if 0 < (highMemory entries).length then
    [{ category := "Memory", priority := "High",
       issues := ["High memory usage detected",
                  "Implement memory leak detection",
                  "Add garbage collection monitoring",
                  "Review large object allocations"] }] else []) ++
  (if 0 < errorCount entries "api" then
    [{ category := "API", priority := "Medium",
       issues := ["Frequent API errors detected",
                  "Implement rate limiting",
                  "Add request validation",
                  "Improve error handling"] }] else []) ++
  (if 0 < errorCount entries "security" then
    [{ category := "Security", priority := "High",
       issues := ["Security-related errors detected",
                  "Review authentication logic",
                  "Implement request sanitization",
                  "Add security headers"] }] else [])

/-- The six `connection refused` error entries of the spec's clustering
example, 30 s apart (a 2.5-minute span). -/
def dbBurst : List LogEntry :=
  [{ level := "error", message := "Connection refused by peer", timestamp := some 0 },
   { level := "error", message := "Connection refused by peer", timestamp := some 30000 },
   { level := "error", message := "Connection refused by peer", timestamp := some 60000 },
   { level := "error", message := "Connection refused by peer", timestamp := some 90000 },
   { level := "error", message := "Connection refused by peer", timestamp := some 120000 },
   { level := "error", message := "Connection refused by peer", timestamp := some 150000 }]

/-- Five error entries producing two clusters, for the witness of
`error_clusters_invariant`. -/
def twoBursts : List LogEntry :=
  [{ level := "error", message := "timeout on request", timestamp := some 0 },
   { level := "error", message := "timeout on request", timestamp := some 100000 },
   { level := "error", message := "timeout on request", timestamp := some 1000000 },
   { level := "error", message := "timeout on request", timestamp := some 1100000 },
   { level := "error", message := "timeout on request", timestamp := some 2000000 }]

/-! ## Feedback analyzer (`FeedbackAnalyzer` class, src/utils/sslConfig.js)

Times are milliseconds-since-epoch as reals; `Math.exp` is `Real.exp`.
The singleton's ambient inputs — `this.feedbackData`, `this.patterns` and
the clock `Date.now()` — are passed explicitly as a snapshot value and a
`now` parameter. -/

/-- One value of the `this.patterns.errors` map: per-error-type
aggregate. -/
structure PatternData where
  count : ℕ
  lastOccurrence : ℝ
  severity : String
  endpoints : List String

/-- One `this.feedbackData.errors` record (fields read by the analyzer). -/
structure ErrorRecord where
  severity : String
  message : String

/-- One `this.feedbackData.userFeedback` record (fields read by the
analyzer). -/
structure FeedbackRecord where
  timestamp : ℝ
  description : String

/-- One `this.feedbackData.performance` record. -/
structure PerfRecord where
  method : String
  path : String
  duration : ℝ

/-- The mutable singleton state of `FeedbackAnalyzer`, as an explicit
snapshot: `feedbackData.{errors, userFeedback, performance}` and
`patterns.errors`. -/
structure AnalyzerState where
  errorsData : List ErrorRecord
  userFeedback : List FeedbackRecord
  performance : List PerfRecord
  patternErrors : List (String × PatternData)

/-- `calculatePriority` (sslConfig.js lines 552–559):
`frequencyScore·0.4 + severityScore·0.4 + recencyScore·0.2` with
`frequencyScore = min(count / 5, 1)` (5 = `thresholds.errorFrequency`),
`severityScore = severity === "critical" ? 1 : 0.5`, and
`recencyScore = exp(-(now - lastOccurrence) / (24·60·60·1000))`. -/
noncomputable def calculatePriority (data : PatternData) (now : ℝ) : ℝ :=
  let frequencyScore := min ((data.count : ℝ) / 5) 1
  let severityScore : ℝ := if data.severity = "critical" then 1 else 0.5
  let recencyScore := Real.exp (-((now - data.lastOccurrence) / (24 * 60 * 60 * 1000)))
  frequencyScore * 0.4 + severityScore * 0.4 + recencyScore * 0.2

/-- One pattern row produced by `analyzeErrorPatterns` (lines 411–428). -/
structure ErrorPattern where
  ptype : String
  count : ℕ
  frequency : ℝ
  lastOccurrence : ℝ
  affectedEndpoints : List String
  priority : ℝ

open Classical in
/-- `analyzeErrorPatterns` (lines 411–428): keep map entries with
`count >= 5`, decorate with frequency and priority, sort by priority
descending (`sort((a, b) => b.priority - a.priority)`, stable).  Note:
`frequency = count / feedbackData.errors.length`; with an empty error list
JavaScript would yield a non-finite frequency, which no claim touches. -/
noncomputable def analyzeErrorPatterns (s : AnalyzerState) (now : ℝ) :
    List ErrorPattern :=
  ((s.patternErrors.filter (fun p => 5 ≤ p.2.count)).map (fun p =>
    { ptype := p.1
      count := p.2.count
      frequency := (p.2.count : ℝ) / (s.errorsData.length : ℝ)
      lastOccurrence := p.2.lastOccurrence
      affectedEndpoints := p.2.endpoints
      priority := calculatePriority p.2 now })).insertionSort
    (fun a b => b.priority ≤ a.priority)

/-- `getErrorRecommendation` (lines 540–550): fixed lookup with a generic
fallback. -/
def getErrorRecommendation (ptype : String) : String :=
  if ptype = "database" then "Implement connection pooling and retry mechanisms"
  else if ptype = "timeout" then
    "Review and adjust timeout settings, implement circuit breakers"
  else if ptype = "validation" then "Enhance input validation and sanitization"
  else if ptype = "authentication" then
    "Review and strengthen authentication mechanisms"
  else if ptype = "rate_limit" then
    "Adjust rate limiting thresholds and implement caching"
  else "Investigate and implement appropriate error handling"

/-- One entry pushed into a recommendation tier. -/
structure TierEntry where
  rtype : String
  issue : String
  recommendation : String
  priorityLabel : String
  metricsFrequency : Option ℝ := none
  metricsOccurrences : Option ℕ := none

/-- The four recommendation tiers (lines 465–470). -/
structure Recommendations where
  immediate : List TierEntry
  high : List TierEntry
  medium : List TierEntry
  low : List TierEntry

open Classical in
/-- The loop body of `generateErrorRecommendations` (lines 491–511):
`priority >= 0.8` pushes an `immediate` entry, else `priority >= 0.6`
pushes a `high` entry, otherwise nothing is pushed. -/
noncomputable def errRecStep (recs : Recommendations) (p : ErrorPattern) :
    Recommendations :=
  if 0.8 ≤ p.priority then
    { recs with immediate := recs.immediate ++
        [{ rtype := "error", issue := "Frequent error: " ++ p.ptype,
           recommendation := getErrorRecommendation p.ptype,
           priorityLabel := "immediate",
           metricsFrequency := some p.frequency,
           metricsOccurrences := some p.count }] }
  else if 0.6 ≤ p.priority then
    { recs with high := recs.high ++
        [{ rtype := "error", issue := "Recurring error: " ++ p.ptype,
           recommendation := getErrorRecommendation p.ptype,
           priorityLabel := "high" }] }
  else recs

/-- `generateErrorRecommendations` (lines 488–512): fold the loop body over
the patterns of `analyzeErrorPatterns`. -/
noncomputable def generateErrorRecommendations (s : AnalyzerState) (now : ℝ)
    (recs : Recommendations) : Recommendations :=
  (analyzeErrorPatterns s now).foldl errRecStep recs

/-- One row of `analyzePerformancePatterns` (lines 452–460). -/
structure PerfPattern where
  endpoint : String
  averageDuration : ℝ
  maxDuration : ℝ
  occurrences : ℕ
  priority : ℝ

open Classical in
/-- The `slowEndpoints` map update of `analyzePerformancePatterns`
(lines 434–450): bump `(count, totalDuration, maxDuration)` for `key`,
inserting at the back on first occurrence (JavaScript `Map` insertion
order). -/
noncomputable def bumpSlow (acc : List (String × ℕ × ℝ × ℝ)) (key : String)
    (dur : ℝ) : List (String × ℕ × ℝ × ℝ) :=
  match acc with
  | [] => [(key, 1, dur, dur)]
  | (k, c, tot, mx) :: rest =>
      if k = key then (k, c + 1, tot + dur, max mx dur) :: rest
      else (k, c, tot, mx) :: bumpSlow rest key dur

/-- Modelled from the spec: `calculatePerformancePriority` is called at
sslConfig.js:458 but its body is not among the source files; spec §4.4/§9
proposes `0.5·min(occurrences/5, 1) + 0.5·min(maxDurationMs/5000, 1)` as
the canonical slow-endpoint priority, which is used here. -/
noncomputable def calculatePerformancePriority (c : ℕ) (mx : ℝ) : ℝ :=
  0.5 * min ((c : ℝ) / 5) 1 + 0.5 * min (mx / 5000) 1

open Classical in
/-- `analyzePerformancePatterns` (lines 431–461): group requests slower
than 2000 ms by `method path`, report average/max/occurrences with a
priority, sorted by priority descending. -/
noncomputable def analyzePerformancePatterns (s : AnalyzerState) :
    List PerfPattern :=
  ((s.performance.foldl
      (fun acc perf =>
        if 2000 < perf.duration then
          bumpSlow acc (perf.method ++ " " ++ perf.path) perf.duration
        else acc)
      []).map (fun g =>
        { endpoint := g.1
          averageDuration := g.2.2.1 / (g.2.1 : ℝ)
          maxDuration := g.2.2.2
          occurrences := g.2.1
          priority := calculatePerformancePriority g.2.1 g.2.2.2 })).insertionSort
    (fun a b => b.priority ≤ a.priority)

open Classical in
/-- Modelled from the spec: `generatePerformanceRecommendations` is called
at sslConfig.js:476 but its body is not among the source files; per spec
§4.4 each slow-endpoint pattern is tiered by its priority with the
`immediate`/`high` thresholds 0.8/0.6 and the documented 0.3 `medium`/`low`
split. -/
noncomputable def generatePerformanceRecommendations (s : AnalyzerState)
    (recs : Recommendations) : Recommendations :=
  (analyzePerformancePatterns s).foldl
    (fun r p =>
      let entry : TierEntry :=
        { rtype := "performance", issue := "Slow endpoint: " ++ p.endpoint,
          recommendation := "Optimize the endpoint",
          priorityLabel := "performance" }
      if 0.8 ≤ p.priority then { r with immediate := r.immediate ++ [entry] }
      else if 0.6 ≤ p.priority then { r with high := r.high ++ [entry] }
      else if 0.3 ≤ p.priority then { r with medium := r.medium ++ [entry] }
      else { r with low := r.low ++ [entry] })
    recs

/-- Modelled from the spec: `analyzeUserComplaints` is called at
sslConfig.js:405 but its body is not among the source files; the spec
leaves user-complaint mining unspecified beyond being a pure function of
the snapshot, so it is modelled as the patterns of
`this.patterns.userComplaints`, which the analyzer snapshot does not carry
— the empty list. -/
def analyzeUserComplaints (_ : AnalyzerState) : List String := []

/-- Modelled from the spec: `analyzeFeatureRequests` is called at
sslConfig.js:406 but its body is not among the source files; modelled like
`analyzeUserComplaints` as the empty list. -/
def analyzeFeatureRequests (_ : AnalyzerState) : List String := []

/-- Modelled from the spec: `generateUserFeedbackRecommendations`
(called at sslConfig.js:479) is not among the source files; with no
user-complaint patterns it appends nothing. -/
def generateUserFeedbackRecommendations (_ : AnalyzerState)
    (recs : Recommendations) : Recommendations := recs

/-- Modelled from the spec: `generateFeatureRequestRecommendations`
(called at sslConfig.js:482) is not among the source files; with no
feature-request patterns it appends nothing. -/
def generateFeatureRequestRecommendations (_ : AnalyzerState)
    (recs : Recommendations) : Recommendations := recs

/-- `generateRecommendations` (lines 464–485): start from four empty tiers
and let the four generators push entries. -/
noncomputable def generateAnalyzerRecommendations (s : AnalyzerState) (now : ℝ) :
    Recommendations :=
  generateFeatureRequestRecommendations s
    (generateUserFeedbackRecommendations s
      (generatePerformanceRecommendations s
        (generateErrorRecommendations s now ⟨[], [], [], []⟩)))

/-- `summary.recentTrends` (lines 525–537). -/
structure RecentTrends where
  dailyFeedbackCount : ℕ
  sentimentTrend : ℝ
  topComplaints : List String
  emergingIssues : List String

/-- Modelled from the spec: `calculateSentimentTrend` (called at
sslConfig.js:533) is not among the source files and the spec gives it no
formula; modelled as the constant 0. -/
def calculateSentimentTrend (_ : List FeedbackRecord) : ℝ := 0

/-- Modelled from the spec: `getTopComplaints` (called at sslConfig.js:534)
is not among the source files; modelled as the empty list. -/
def getTopComplaints (_ : List FeedbackRecord) : List String := []

/-- Modelled from the spec: `identifyEmergingIssues` (called at
sslConfig.js:535) is not among the source files; modelled as the empty
list. -/
def identifyEmergingIssues (_ : List FeedbackRecord) : List String := []

open Classical in
/-- `analyzeRecentTrends` (lines 525–537): statistics over the feedback of
the last 24 hours. -/
noncomputable def analyzeRecentTrends (s : AnalyzerState) (now : ℝ) :
    RecentTrends :=
  let recentFeedback :=
    s.userFeedback.filter (fun f => now - f.timestamp < 24 * 60 * 60 * 1000)
  { dailyFeedbackCount := recentFeedback.length
    sentimentTrend := calculateSentimentTrend recentFeedback
    topComplaints := getTopComplaints recentFeedback
    emergingIssues := identifyEmergingIssues recentFeedback }

/-- One `summary.topIssues` row (lines 385–392). -/
structure TopIssue where
  error : String
  count : ℕ
  lastOccurrence : ℝ

/-- The `summary` object of `generateSummary` (lines 369–398). -/
structure AnalyzerSummary where
  totalFeedback : ℕ
  totalErrors : ℕ
  performanceIssues : ℕ
  criticalIssues : ℕ
  topIssues : List TopIssue
  recentTrends : RecentTrends

/-- `generateSummary` (lines 369–398): totals, critical count, top-5
error-map entries by count descending (stable sort), recent trends. -/
noncomputable def generateSummary (s : AnalyzerState) (now : ℝ) :
    AnalyzerSummary :=
  { totalFeedback := s.userFeedback.length
    totalErrors := s.errorsData.length
    performanceIssues := s.performance.length
    criticalIssues :=
      (s.errorsData.filter (fun e => e.severity == "critical")).length
    topIssues :=
      ((s.patternErrors.insertionSort (fun a b => b.2.count ≤ a.2.count)).take 5).map
        (fun p => { error := p.1, count := p.2.count,
                    lastOccurrence := p.2.lastOccurrence })
    recentTrends := analyzeRecentTrends s now }

/-- The `patterns` object of `identifyPatterns` (lines 401–408). -/
structure PatternsReport where
  errorPatterns : List ErrorPattern
  performancePatterns : List PerfPattern
  userComplaintPatterns : List String
  featureRequestPatterns : List String

/-- `identifyPatterns` (lines 401–408). -/
noncomputable def identifyPatterns (s : AnalyzerState) (now : ℝ) :
    PatternsReport :=
  { errorPatterns := analyzeErrorPatterns s now
    performancePatterns := analyzePerformancePatterns s
    userComplaintPatterns := analyzeUserComplaints s
    featureRequestPatterns := analyzeFeatureRequests s }

/-- The `metrics` object of `calculateMetrics` (lines 515–522). -/
structure AnalyzerMetrics where
  errorRate : ℝ
  averageResponseTime : ℝ
  userSatisfaction : ℝ
  criticalIssueRate : ℝ

/-- Modelled from the spec: `calculateErrorRate` (called at
sslConfig.js:517) is not among the source files; spec §4.4 defines
`errorRate = totalErrors / totalFeedback` with the neutral value 0 when
`totalFeedback == 0`. -/
noncomputable def calculateErrorRate (s : AnalyzerState) : ℝ :=
  if s.userFeedback.length = 0 then 0
  else (s.errorsData.length : ℝ) / (s.userFeedback.length : ℝ)

/-- Modelled from the spec: `calculateAverageResponseTime` (called at
sslConfig.js:518) is not among the source files; spec §4.4 takes it from
the performance data, 0 when there is none (§7 neutral-value rule). -/
noncomputable def calculateAverageResponseTime (s : AnalyzerState) : ℝ :=
  if s.performance.length = 0 then 0
  else ((s.performance.map (fun p => p.duration)).sum) / (s.performance.length : ℝ)

/-- Modelled from the spec: `calculateUserSatisfaction` (called at
sslConfig.js:519) is not among the source files and §9 records that it is
never computed anywhere; treated as an unresolved external input, fixed
at 0. -/
def calculateUserSatisfaction (_ : AnalyzerState) : ℝ := 0

/-- Modelled from the spec: `calculateCriticalIssueRate` (called at
sslConfig.js:520) is not among the source files; spec §4.4 defines
`criticalIssueRate = criticalCount / totalFeedback` with the neutral value
0 when `totalFeedback == 0`. -/
noncomputable def calculateCriticalIssueRate (s : AnalyzerState) : ℝ :=
  if s.userFeedback.length = 0 then 0
  else ((s.errorsData.filter (fun e => e.severity == "critical")).length : ℝ) /
    (s.userFeedback.length : ℝ)

/-- `calculateMetrics` (lines 515–522). -/
noncomputable def calculateMetrics (s : AnalyzerState) : AnalyzerMetrics :=
  { errorRate := calculateErrorRate s
    averageResponseTime := calculateAverageResponseTime s
    userSatisfaction := calculateUserSatisfaction s
    criticalIssueRate := calculateCriticalIssueRate s }

/-- The report object of `analyzeAllFeedback` (lines 349–355). -/
structure AnalyzerReport where
  timestamp : ℝ
  summary : AnalyzerSummary
  patterns : PatternsReport
  recommendations : Recommendations
  metrics : AnalyzerMetrics

/-- `analyzeAllFeedback` (lines 345–366): assemble the report; the
`timestamp` field is `new Date().toISOString()`, i.e. the current clock
instant (`toISOString` is injective on epoch-milliseconds, so the instant
itself stands for the string). -/
noncomputable def analyzeAllFeedback (s : AnalyzerState) (now : ℝ) :
    AnalyzerReport :=
  { timestamp := now
    summary := generateSummary s now
    patterns := identifyPatterns s now
    recommendations := generateAnalyzerRecommendations s now
    metrics := calculateMetrics s }

/-- The snapshot of a freshly constructed analyzer: no feedback at all. -/
def emptyState : AnalyzerState :=
  { errorsData := [], userFeedback := [], performance := [], patternErrors := [] }

/-! ## Feedback collector (`src/utils/feedbackCollector.js`)

`getStatistics` divides by `metrics.totalFeedback` without a zero guard.
A JavaScript division whose denominator is `0` produces `NaN` (or
`±Infinity`), modelled as `none`. -/

/-- `this.metrics` of `FeedbackCollector` (lines 25–31). -/
structure CollectorMetrics where
  totalFeedback : ℕ
  bugReports : ℕ
  featureRequests : ℕ
  performanceIssues : ℕ
  criticalIssues : ℕ
  deriving DecidableEq, Repr

/-- JavaScript number division: `none` stands for the non-finite results
(`0/0 = NaN`, `x/0 = ±Infinity`). -/
def jsDiv (a b : ℚ) : Option ℚ := if b = 0 then none else some (a / b)

/-- The two ratios of `getStatistics` (lines 207–214):
`errorRate = bugReports / totalFeedback`,
`criticalRate = criticalIssues / totalFeedback`. -/
structure CollectorStatistics where
  errorRate : Option ℚ
  criticalRate : Option ℚ
  deriving DecidableEq, Repr

/-- `getStatistics` (lines 207–214). -/
def getStatistics (m : CollectorMetrics) : CollectorStatistics :=
  { errorRate := jsDiv (m.bugReports : ℚ) (m.totalFeedback : ℚ)
    criticalRate := jsDiv (m.criticalIssues : ℚ) (m.totalFeedback : ℚ) }

/-- The metrics of a freshly constructed collector (constructor lines
25–31): all counters 0 — the state after zero feedback entries. -/
def initialMetrics : CollectorMetrics :=
  { totalFeedback := 0, bugReports := 0, featureRequests := 0,
    performanceIssues := 0, criticalIssues := 0 }

/-! ## Sentiment scorer: theorems -/

lemma senStep_matchOf (acc : ℚ × List (String × ℚ)) (w : String) :
    senStep acc w =
      match matchOf w with
      | some p => (acc.1 + p.2, acc.2 ++ [p])
      | none => acc := by
  unfold senStep matchOf
  cases h1 : lookupKw POSITIVE_KEYWORDS w with
  | some v => rfl
  | none => cases h2 : lookupKw NEGATIVE_KEYWORDS w <;> rfl

lemma foldl_senStep_matched (ws : List String) (t : ℚ) (m : List (String × ℚ)) :
    (ws.foldl senStep (t, m)).2 = m ++ ws.filterMap matchOf := by
  induction ws generalizing t m with
  | nil => simp
  | cons w ws ih =>
      rw [List.foldl_cons, senStep_matchOf]
      cases h : matchOf w with
      | some p => simp [h, ih]
      | none => simp [h, ih]

lemma foldl_senStep_total (ws : List String) (t : ℚ) (m : List (String × ℚ)) :
    (ws.foldl senStep (t, m)).1 = t + ((ws.filterMap matchOf).map Prod.snd).sum := by
  induction ws generalizing t m with
  | nil => simp
  | cons w ws ih =>
      rw [List.foldl_cons, senStep_matchOf]
      cases h : matchOf w with
      | some p => simp [h, ih]; ring
      | none => simp [h, ih]

/-- **C2.** For every input text, `analyzeSentiment` matches exactly the
tokens found in the positive/negative keyword tables (repeats counted
individually, positive table first), and returns `score = 0`,
`confidence = 0` when no token matched; otherwise
`score = round2(totalWeight / matchedCount)` and
`confidence = min(matchedCount / 3, 1)`. -/
theorem sentiment_score_formula (text : String) :
    (analyzeSentiment text).matchedWords = (tokenize text).filterMap matchOf ∧
    ((analyzeSentiment text).matchedWords.length = 0 →
      (analyzeSentiment text).score = 0 ∧ (analyzeSentiment text).confidence = 0) ∧
    (0 < (analyzeSentiment text).matchedWords.length →
      (analyzeSentiment text).score =
        round2 ((((analyzeSentiment text).matchedWords.map Prod.snd).sum) /
          ((analyzeSentiment text).matchedWords.length : ℚ)) ∧
      (analyzeSentiment text).confidence =
        min (((analyzeSentiment text).matchedWords.length : ℚ) / 3) 1) := by
  have hm : (analyzeSentiment text).matchedWords = (tokenize text).filterMap matchOf := by
    simp [analyzeSentiment, foldl_senStep_matched]
  refine ⟨hm, ?_, ?_⟩
  · intro h0
    have h0' : ((tokenize text).foldl senStep (0, [])).2.length = 0 := by
      simpa [analyzeSentiment] using h0
    constructor
    · simp [analyzeSentiment, h0', round2]
      norm_num
    · simp [analyzeSentiment, h0']
  · intro hpos
    have hpos' : 0 < ((tokenize text).foldl senStep (0, [])).2.length := by
      simpa [analyzeSentiment] using hpos
    have htot : ((tokenize text).foldl senStep (0, [])).1 =
        ((((tokenize text).foldl senStep (0, [])).2).map Prod.snd).sum := by
      rw [foldl_senStep_total, foldl_senStep_matched]
      simp
    have hmax : max ((((tokenize text).foldl senStep (0, [])).2.length : ℚ)) 1 =
        (((tokenize text).foldl senStep (0, [])).2.length : ℚ) := by
      have h1 : (1 : ℚ) ≤ (((tokenize text).foldl senStep (0, [])).2.length : ℚ) := by
        exact_mod_cast Nat.one_le_iff_ne_zero.mpr (Nat.pos_iff_ne_zero.mp hpos')
      exact max_eq_left h1
    constructor
    · simp only [analyzeSentiment, hpos', if_pos, htot, hmax]
    · simp [analyzeSentiment]

/-- Concrete instance of `sentiment_score_formula` with the hypotheses
discharged at the input `"good"`. -/
theorem sentiment_score_formula_witness :
    0 < (analyzeSentiment "good").matchedWords.length ∧
    ((analyzeSentiment "good").score =
        round2 ((((analyzeSentiment "good").matchedWords.map Prod.snd).sum) /
          ((analyzeSentiment "good").matchedWords.length : ℚ)) ∧
      (analyzeSentiment "good").confidence =
        min (((analyzeSentiment "good").matchedWords.length : ℚ) / 3) 1) :=
  ⟨by decide, (sentiment_score_formula "good").2.2 (by decide)⟩

/-! ## Aspect classifier: theorems -/

/-- **C3, counterexample.** On
`"The food was delicious and the service was excellent"` the aspect
classifier does **not** return `aspects.food.score == 0.80`: both matching
aspects are scored on the same single sentence (their matched-sentence
lists coincide), whose sentiment is `round2((0.8 + 1.0) / 2) = 0.90`. -/
theorem aspect_example_claim_false :
    ¬ (aspectScore "The food was delicious and the service was excellent" "food" =
        some (80/100) ∧
      aspectScore "The food was delicious and the service was excellent" "service" =
        some (100/100)) := by
  intro h
  have hf : aspectScore "The food was delicious and the service was excellent" "food" =
      some (9/10) := by decide
  rw [hf] at h
  exact absurd h.1 (by decide)

/-- **C3, amended.** On
`"The food was delicious and the service was excellent"` the classifier
returns `aspects.food.score == 0.90`, `aspects.service.score == 0.90`
(both aspects share the sole sentence, so both carry its sentiment
`round2(1.8 / 2) = 0.90`), and `summary.overallScore == 0.90` as the
claim states. -/
theorem aspect_example_scores :
    aspectScore "The food was delicious and the service was excellent" "food" =
      some (90/100) ∧
    aspectScore "The food was delicious and the service was excellent" "service" =
      some (90/100) ∧
    ((analyzeAspects "The food was delicious and the service was excellent").2).map
      (fun s => s.overallScore) = some (90/100) := by
  refine ⟨by decide, by decide, by decide⟩

/-! ## Log pattern analyzer: theorems -/

/-- **C4.** For every error message, the assigned category is the first of
timeout, memory, database, api, security — tested in that fixed order —
whose pattern matches; when none matches, the category is `other`. -/
theorem classify_first_match (msg : String) :
    classifyError msg =
      if timeoutPat msg then "timeout"
      else if memoryPat msg then "memory"
      else if databasePat msg then "database"
      else if apiPat msg then "api"
      else if securityPat msg then "security"
      else "other" := by
  unfold classifyError
  cases h1 : timeoutPat msg <;> cases h2 : memoryPat msg <;>
    cases h3 : databasePat msg <;> cases h4 : apiPat msg <;>
    cases h5 : securityPat msg <;>
    simp [errorPatterns, List.find?, h1, h2, h3, h4, h5]

/-- **C1.** On six `error` entries containing `connection refused` within a
3-minute span, every entry classifies as `database` and a Database-category
recommendation is emitted — but the analyzer returns **zero** error
clusters, not one cluster of six: the loop of `analyzePatterns` flushes a
cluster only when a gap `> 300000` ms arrives, and the final
`currentCluster` (here holding all six timestamps) is discarded when the
loop ends. -/
theorem db_burst_zero_clusters :
    (dbBurst.map (fun e => classifyError e.message)) =
      ["database", "database", "database", "database", "database", "database"] ∧
    errorCount dbBurst "database" = 6 ∧
    (generateLogRecommendations dbBurst).map (fun r => r.category) = ["Database"] ∧
    errorClusters dbBurst = [] := by
  refine ⟨by decide, by decide, by decide, by decide⟩

/-- Loop invariant of the cluster loop: on a sorted input, every returned
cluster has at least two members and internal gaps of at most 300000 ms,
consecutive returned clusters are separated by more than 300000 ms, and
every returned cluster starts no earlier than the head of the current
cluster. -/
lemma buildClusters_spec :
    ∀ (ts cur : List ℤ),
      (cur ++ ts).Sorted (· ≤ ·) →
      cur.Chain' (fun a b => b - a ≤ 300000) →
      (∀ cl ∈ buildClusters ts cur, 2 ≤ cl.length) ∧
      (∀ cl ∈ buildClusters ts cur, cl.Chain' (fun a b => b - a ≤ 300000)) ∧
      (buildClusters ts cur).Chain'
        (fun cl dl => ∀ x ∈ cl.getLast?, ∀ y ∈ dl.head?, 300000 < y - x) ∧
      (∀ cl ∈ buildClusters ts cur, ∀ x ∈ cur.head?, ∀ y ∈ cl.head?, x ≤ y)
  | [], cur, _, _ => by simp [buildClusters]
  | t :: rest, [], hs, _ => by
      have ih := buildClusters_spec rest [t] (by simpa using hs)
        (List.chain'_singleton t)
      rw [show buildClusters (t :: rest) [] = buildClusters rest [t] from rfl]
      exact ⟨ih.1, ih.2.1, ih.2.2.1, fun cl _ x hx => by simp at hx⟩
  | t :: rest, c :: cs, hs, hc => by
      have hlast : (c :: cs).getLast? =
          some ((c :: cs).getLast (List.cons_ne_nil c cs)) :=
        List.getLast?_eq_getLast _ _
      have hct : c ≤ t := by
        rw [List.cons_append, List.sorted_cons] at hs
        exact hs.1 t (List.mem_append_right _ (List.mem_cons_self t rest))
      by_cases h : t - (c :: cs).getLast (List.cons_ne_nil c cs) ≤ 300000
      · -- the gap is small: the current cluster is extended with `t`
        have hs' : (((c :: cs) ++ [t]) ++ rest).Sorted (· ≤ ·) := by
          simpa [List.append_assoc] using hs
        have hc' : ((c :: cs) ++ [t]).Chain' (fun a b => b - a ≤ 300000) := by
          rw [List.chain'_append]
          refine ⟨hc, List.chain'_singleton t, ?_⟩
          intro x hx y hy
          rw [hlast] at hx
          simp only [Option.mem_def, Option.some.injEq] at hx
          simp only [List.head?_cons, Option.mem_def, Option.some.injEq] at hy
          subst hx; subst hy
          exact h
        have ih := buildClusters_spec rest ((c :: cs) ++ [t]) hs' hc'
        rw [show buildClusters (t :: rest) (c :: cs) =
            buildClusters rest ((c :: cs) ++ [t]) by simp [buildClusters, h]]
        refine ⟨ih.1, ih.2.1, ih.2.2.1, ?_⟩
        intro cl hcl x hx y hy
        refine ih.2.2.2 cl hcl x ?_ y hy
        simpa using hx
      · -- the gap is large: flush (when ≥ 2 members) and restart at `t`
        have hsrest : ([t] ++ rest).Sorted (· ≤ ·) := by
          have : (t :: rest).Sorted (· ≤ ·) :=
            List.Pairwise.sublist (List.sublist_append_right (c :: cs) _) hs
          simpa using this
        have ih := buildClusters_spec rest [t] hsrest (List.chain'_singleton t)
        have hgap : 300000 < t - (c :: cs).getLast (List.cons_ne_nil c cs) := by omega
        by_cases hl : 1 < (c :: cs).length
        · rw [show buildClusters (t :: rest) (c :: cs) =
              (c :: cs) :: buildClusters rest [t] by
                simp [buildClusters, h, hl]
                intro hcs
                subst hcs
                simp at hl]
          refine ⟨?_, ?_, ?_, ?_⟩
          · intro cl hcl
            rcases List.mem_cons.mp hcl with rfl | hcl'
            · exact hl
            · exact ih.1 cl hcl'
          · intro cl hcl
            rcases List.mem_cons.mp hcl with rfl | hcl'
            · exact hc
            · exact ih.2.1 cl hcl'
          · rw [List.chain'_cons']
            refine ⟨?_, ih.2.2.1⟩
            intro d hd x hx y hy
            have hdmem : d ∈ buildClusters rest [t] := List.mem_of_mem_head? hd
            have hty : t ≤ y := ih.2.2.2 d hdmem t (by simp) y hy
            rw [hlast] at hx
            simp only [Option.mem_def, Option.some.injEq] at hx
            subst hx
            omega
          · intro cl hcl x hx y hy
            simp only [List.head?_cons, Option.mem_def, Option.some.injEq] at hx
            subst hx
            rcases List.mem_cons.mp hcl with rfl | hcl'
            · simp only [List.head?_cons, Option.mem_def, Option.some.injEq] at hy
              omega
            · have hty : t ≤ y := ih.2.2.2 cl hcl' t (by simp) y hy
              omega
        · rw [show buildClusters (t :: rest) (c :: cs) =
              buildClusters rest [t] by
                simp [buildClusters, h, hl]
                simp only [List.length_cons] at hl
                exact List.length_eq_zero.mp (by omega)]
          refine ⟨ih.1, ih.2.1, ih.2.2.1, ?_⟩
          intro cl hcl x hx y hy
          simp only [List.head?_cons, Option.mem_def, Option.some.injEq] at hx
          subst hx
          have hty : t ≤ y := ih.2.2.2 cl hcl t (by simp) y hy
          omega

/-- **C9.** Every error cluster returned by the analyzer has at least two
members; within a cluster every consecutive pair of timestamps differs by
at most 300000 ms; and consecutive returned clusters are separated (last
timestamp of the earlier to first timestamp of the later) by more than
300000 ms. -/
theorem error_clusters_invariant (entries : List LogEntry) :
    (∀ cl ∈ errorClusters entries, 2 ≤ cl.length) ∧
    (∀ cl ∈ errorClusters entries,
      cl.Chain' (fun a b => b - a ≤ 300000)) ∧
    (errorClusters entries).Chain'
      (fun cl dl => ∀ x ∈ cl.getLast?, ∀ y ∈ dl.head?, 300000 < y - x) := by
  have h := buildClusters_spec ((errorTimes entries).insertionSort (· ≤ ·)) []
    (by simpa using List.sorted_insertionSort _ (errorTimes entries))
    (List.chain'_nil)
  exact ⟨h.1, h.2.1, h.2.2.1⟩

/-- Concrete instance of `error_clusters_invariant`: the first cluster of
`twoBursts` has two members and gaps within bound. -/
theorem error_clusters_invariant_witness :
    2 ≤ ([0, 100000] : List ℤ).length ∧
    ([0, 100000] : List ℤ).Chain' (fun a b => b - a ≤ 300000) :=
  ⟨(error_clusters_invariant twoBursts).1 [0, 100000] (by decide),
   (error_clusters_invariant twoBursts).2.1 [0, 100000] (by decide)⟩

/-! ## Feedback analyzer and collector: theorems -/

/-- **C5.** For every error aggregate whose `lastOccurrence` is not in the
future, the priority score equals
`0.4·min(count/5, 1) + 0.4·(severity == critical ? 1 : 0.5)
 + 0.2·exp(-(now - lastOccurrence)/86400000)` and lies in `[0, 1]`. -/
theorem priority_formula_and_range (d : PatternData) (now : ℝ)
    (h : d.lastOccurrence ≤ now) :
    calculatePriority d now =
      0.4 * min ((d.count : ℝ) / 5) 1 +
        0.4 * (if d.severity = "critical" then (1 : ℝ) else 0.5) +
        0.2 * Real.exp (-((now - d.lastOccurrence) / 86400000)) ∧
    0 ≤ calculatePriority d now ∧ calculatePriority d now ≤ 1 := by
  have h864 : (24 : ℝ) * 60 * 60 * 1000 = 86400000 := by norm_num
  unfold calculatePriority
  simp only [h864]
  have hf0 : (0 : ℝ) ≤ min ((d.count : ℝ) / 5) 1 :=
    le_min (by positivity) zero_le_one
  have hf1 : min ((d.count : ℝ) / 5) 1 ≤ 1 := min_le_right _ _
  have hs0 : (0 : ℝ) ≤ (if d.severity = "critical" then (1 : ℝ) else 0.5) := by
    split_ifs <;> norm_num
  have hs1 : (if d.severity = "critical" then (1 : ℝ) else 0.5) ≤ 1 := by
    split_ifs <;> norm_num
  have hr0 : (0 : ℝ) < Real.exp (-((now - d.lastOccurrence) / 86400000)) :=
    Real.exp_pos _
  have hr1 : Real.exp (-((now - d.lastOccurrence) / 86400000)) ≤ 1 := by
    rw [Real.exp_le_one_iff]
    have : (0 : ℝ) ≤ (now - d.lastOccurrence) / 86400000 := by
      apply div_nonneg (by linarith) (by norm_num)
    linarith
  refine ⟨by ring, by nlinarith, by nlinarith⟩

/-- Concrete instance of `priority_formula_and_range` with the hypothesis
discharged at `lastOccurrence = now = 0`. -/
theorem priority_formula_and_range_witness :
    (⟨0, 0, "none", []⟩ : PatternData).lastOccurrence ≤ (0 : ℝ) ∧
    (calculatePriority ⟨0, 0, "none", []⟩ 0 =
      0.4 * min (((⟨0, 0, "none", []⟩ : PatternData).count : ℝ) / 5) 1 +
        0.4 * (if (⟨0, 0, "none", []⟩ : PatternData).severity = "critical"
          then (1 : ℝ) else 0.5) +
        0.2 * Real.exp (-((0 - (⟨0, 0, "none", []⟩ : PatternData).lastOccurrence)
          / 86400000)) ∧
      0 ≤ calculatePriority ⟨0, 0, "none", []⟩ 0 ∧
      calculatePriority ⟨0, 0, "none", []⟩ 0 ≤ 1) :=
  ⟨le_refl 0, priority_formula_and_range ⟨0, 0, "none", []⟩ 0 (le_refl 0)⟩

/-- **C8.** Holding severity, last occurrence and the clock fixed, the
priority score is monotonically non-decreasing in `count`. -/
theorem priority_monotone_in_count (c1 c2 : ℕ) (last : ℝ) (sev : String)
    (eps : List String) (now : ℝ) (h : c1 ≤ c2) :
    calculatePriority ⟨c1, last, sev, eps⟩ now ≤
      calculatePriority ⟨c2, last, sev, eps⟩ now := by
  unfold calculatePriority
  have hmono : min ((c1 : ℝ) / 5) 1 ≤ min ((c2 : ℝ) / 5) 1 := by
    apply min_le_min _ le_rfl
    have : (c1 : ℝ) ≤ (c2 : ℝ) := by exact_mod_cast h
    linarith
  simp only
  nlinarith [hmono]

/-- Concrete instance of `priority_monotone_in_count` with the hypothesis
discharged at `c1 = 1 ≤ 2 = c2`. -/
theorem priority_monotone_in_count_witness :
    (1 : ℕ) ≤ 2 ∧
    calculatePriority ⟨1, 0, "none", []⟩ 0 ≤ calculatePriority ⟨2, 0, "none", []⟩ 0 :=
  ⟨by norm_num, priority_monotone_in_count 1 2 0 "none" [] 0 (by norm_num)⟩

lemma errRecStep_medium_low (recs : Recommendations) (p : ErrorPattern) :
    (errRecStep recs p).medium = recs.medium ∧
    (errRecStep recs p).low = recs.low := by
  unfold errRecStep
  split_ifs <;> simp

lemma foldl_errRecStep_medium_low (ps : List ErrorPattern)
    (recs : Recommendations) :
    (ps.foldl errRecStep recs).medium = recs.medium ∧
    (ps.foldl errRecStep recs).low = recs.low := by
  induction ps generalizing recs with
  | nil => exact ⟨rfl, rfl⟩
  | cons p ps ih =>
      rw [List.foldl_cons]
      refine ⟨?_, ?_⟩
      · rw [(ih (errRecStep recs p)).1, (errRecStep_medium_low recs p).1]
      · rw [(ih (errRecStep recs p)).2, (errRecStep_medium_low recs p).2]

/-- **C10.** An error pattern with priority below 0.6 contributes no
recommendation at all, and the `medium` and `low` tiers never receive
error-derived entries for any input. -/
theorem error_recommendation_tiers :
    (∀ (recs : Recommendations) (p : ErrorPattern),
      p.priority < 0.6 → errRecStep recs p = recs) ∧
    (∀ (s : AnalyzerState) (now : ℝ) (recs : Recommendations),
      (generateErrorRecommendations s now recs).medium = recs.medium ∧
      (generateErrorRecommendations s now recs).low = recs.low) := by
  constructor
  · intro recs p hp
    unfold errRecStep
    rw [if_neg (by linarith), if_neg (by linarith)]
  · intro s now recs
    exact foldl_errRecStep_medium_low _ recs

/-- Concrete instance of `error_recommendation_tiers`: a priority-0 pattern
leaves the tiers untouched, and `medium`/`low` of the empty analyzer state
stay empty. -/
theorem error_recommendation_tiers_witness :
    ((⟨"database", 5, 0, 0, [], 0⟩ : ErrorPattern).priority < 0.6 ∧
      errRecStep ⟨[], [], [], []⟩ ⟨"database", 5, 0, 0, [], 0⟩ = ⟨[], [], [], []⟩) ∧
    (generateErrorRecommendations emptyState 0 ⟨[], [], [], []⟩).medium = [] ∧
    (generateErrorRecommendations emptyState 0 ⟨[], [], [], []⟩).low = [] :=
  ⟨⟨by norm_num,
    error_recommendation_tiers.1 ⟨[], [], [], []⟩ ⟨"database", 5, 0, 0, [], 0⟩
      (by norm_num)⟩,
   error_recommendation_tiers.2 emptyState 0 ⟨[], [], [], []⟩⟩

/-- **C7, counterexample.** Two runs of `analyzeAllFeedback` on the *same*
snapshot are not byte-for-byte identical when the ambient clock differs:
the report embeds `new Date().toISOString()`, so a run at epoch 0 and a run
one day later disagree on the `timestamp` field. -/
theorem analyzeAll_two_runs_differ :
    analyzeAllFeedback emptyState 0 ≠ analyzeAllFeedback emptyState 86400000 := by
  intro h
  have ht := congrArg AnalyzerReport.timestamp h
  simp only [analyzeAllFeedback] at ht
  norm_num at ht

/-- **C7, amended.** The analysis is deterministic in its full inputs —
the feedback snapshot *and* the clock instant: two runs with identical
snapshot and identical clock produce identical reports. -/
theorem analyzeAll_deterministic (s1 s2 : AnalyzerState) (n1 n2 : ℝ)
    (hs : s1 = s2) (hn : n1 = n2) :
    analyzeAllFeedback s1 n1 = analyzeAllFeedback s2 n2 := by
  rw [hs, hn]

/-- Concrete instance of `analyzeAll_deterministic` at the empty snapshot
and clock 0. -/
theorem analyzeAll_deterministic_witness :
    analyzeAllFeedback emptyState 0 = analyzeAllFeedback emptyState 0 :=
  analyzeAll_deterministic emptyState emptyState 0 0 rfl rfl

/-- **C6.** With zero feedback entries the modelled analyzer metrics yield
the neutral `errorRate = 0` and `criticalIssueRate = 0` and the
recommendations are empty — but the *collector's* `getStatistics`, which
divides `bugReports / totalFeedback` without a zero guard, produces the
non-finite `0/0` (JavaScript `NaN`) instead of the required 0. -/
theorem zero_feedback_metrics :
    (getStatistics initialMetrics).errorRate = none ∧
    (getStatistics initialMetrics).criticalRate = none ∧
    (getStatistics initialMetrics).errorRate ≠ some 0 ∧
    calculateErrorRate emptyState = 0 ∧
    calculateCriticalIssueRate emptyState = 0 ∧
    generateAnalyzerRecommendations emptyState 0 = ⟨[], [], [], []⟩ := by
  refine ⟨by decide, by decide, by decide, ?_, ?_, ?_⟩
  · simp [calculateErrorRate, emptyState]
  · simp [calculateCriticalIssueRate, emptyState]
  · unfold generateAnalyzerRecommendations generateFeatureRequestRecommendations
      generateUserFeedbackRecommendations generatePerformanceRecommendations
      generateErrorRecommendations analyzePerformancePatterns analyzeErrorPatterns
      emptyState
    simp [List.insertionSort]

end Analytics
